import Mathlib

/-!
Shallow embedding of the deterministic game core of the `cat_raddit`
repository: the temperature, comfort, timer and interference subsystems and
the two `GameStateManager` variants that compose them (the manager in
`raddit/src/client/systems/GameStateManager.ts` and the one in
`src/client/systems/GameStateManager.ts`).  Numbers are modelled as `ℚ`;
every call to `Math.random()` is replaced by an explicit parameter that
carries the drawn value, so all functions are pure and executable.
-/

namespace CatRaddit

/-- The `GameStatus` union from `types/GameTypes.ts`:
`'playing' | 'success' | 'failure' | 'paused'`. -/
inductive GameStatus where
  | playing
  | success
  | failure
  | paused
deriving DecidableEq

/-- The `InterferenceType` union from the systems sources:
`'none' | 'controls_reversed' | 'temperature_shock' | 'bubble_obstruction'`. -/
inductive InterferenceType where
  | none
  | controls_reversed
  | temperature_shock
  | bubble_obstruction
deriving DecidableEq

/-- The `GameConfig` record (rate constants and bounds), as declared in
`types/GameTypes.ts` and instantiated by `GAME_CONFIG`. -/
structure GameConfig where
  TEMPERATURE_CHANGE_RATE : ℚ
  TEMPERATURE_COOLING_RATE : ℚ
  COMFORT_CHANGE_RATE : ℚ
  GAME_DURATION : ℚ
  SUCCESS_HOLD_TIME : ℚ
  INITIAL_TEMPERATURE : ℚ
  TARGET_TEMPERATURE_MIN : ℚ
  TARGET_TEMPERATURE_MAX : ℚ
  TOLERANCE_WIDTH : ℚ
  INTERFERENCE_MIN_INTERVAL : ℚ
  INTERFERENCE_MAX_INTERVAL : ℚ
  INTERFERENCE_DURATION : ℚ
deriving DecidableEq

/-- The concrete `GAME_CONFIG` value of the server-side module
(`unnamed/part_006`), used for concrete evaluations. -/
def GAME_CONFIG : GameConfig :=
  { TEMPERATURE_CHANGE_RATE := 1/2
    TEMPERATURE_COOLING_RATE := 3/10
    COMFORT_CHANGE_RATE := 1/5
    GAME_DURATION := 30
    SUCCESS_HOLD_TIME := 5
    INITIAL_TEMPERATURE := 1/2
    TARGET_TEMPERATURE_MIN := 3/10
    TARGET_TEMPERATURE_MAX := 7/10
    TOLERANCE_WIDTH := 1/10
    INTERFERENCE_MIN_INTERVAL := 3
    INTERFERENCE_MAX_INTERVAL := 5
    INTERFERENCE_DURATION := 8 }

/-- The `InterferenceEvent` record:
`{type, isActive, duration, remainingTime}`. -/
structure InterferenceEvent where
  type : InterferenceType
  isActive : Bool
  duration : ℚ
  remainingTime : ℚ
deriving DecidableEq

/-- One tick's worth of random draws.  The TypeScript code calls
`Math.random()` at three places (interval reseed, interference-type choice,
temperature-shock coin); each draw is passed in explicitly here. -/
structure RandomDraws where
  u : ℚ
  typeIdx : Fin 3
  coin : Bool
deriving DecidableEq

/-- `TemperatureSystem.updateTemperature` (identical in
`old/src/mechanics/TemperatureSystem.ts`, `unnamed/part_005` and
`unnamed/part_006`): swap the effective plus/minus when reversed, apply the
held control or natural cooling, clamp to `[0,1]`. -/
def updateTemperature (config : GameConfig) (currentTemperature : ℚ)
    (isPlusHeld isMinusHeld isControlsReversed : Bool) (deltaTime : ℚ) : ℚ :=
  let effectivePlusHeld := if isControlsReversed then isMinusHeld else isPlusHeld
  let effectiveMinusHeld := if isControlsReversed then isPlusHeld else isMinusHeld
  let newTemperature :=
    if effectivePlusHeld then
      currentTemperature + config.TEMPERATURE_CHANGE_RATE * deltaTime
    else if effectiveMinusHeld then
      currentTemperature - config.TEMPERATURE_CHANGE_RATE * deltaTime
    else
      currentTemperature - config.TEMPERATURE_COOLING_RATE * deltaTime
  max 0 (min 1 newTemperature)

/-- `TemperatureSystem.isTemperatureInRange`: true iff
`|current - target| ≤ tolerance`. -/
def isTemperatureInRange (currentTemperature targetTemperature toleranceWidth : ℚ) : Bool :=
  decide (|currentTemperature - targetTemperature| ≤ toleranceWidth)

/-- `ComfortSystem.updateComfort` (`unnamed/part_000` lines 18-33, identical
in `unnamed/part_006` and `unnamed/part_008`): move comfort up or down by
`COMFORT_CHANGE_RATE * deltaTime` and clamp to `[0,1]`. -/
def updateComfort (config : GameConfig) (currentComfort : ℚ)
    (isInToleranceRange : Bool) (deltaTime : ℚ) : ℚ :=
  let newComfort :=
    if isInToleranceRange then
      currentComfort + config.COMFORT_CHANGE_RATE * deltaTime
    else
      currentComfort - config.COMFORT_CHANGE_RATE * deltaTime
  max 0 (min 1 newComfort)

/-- `ComfortSystem.isSuccessConditionMet` (`unnamed/part_008`):
`comfortLevel >= 0.8`. -/
def isSuccessConditionMet (comfortLevel : ℚ) : Bool :=
  decide ((4 : ℚ)/5 ≤ comfortLevel)

/-- `TimerSystem.updateGameTimer`: `Math.max(0, currentTimer - deltaTime)`. -/
def updateGameTimer (currentTimer deltaTime : ℚ) : ℚ :=
  max 0 (currentTimer - deltaTime)

/-- `TimerSystem.updateInterferenceTimer`: `Math.max(0, currentTimer - deltaTime)`. -/
def updateInterferenceTimer (currentTimer deltaTime : ℚ) : ℚ :=
  max 0 (currentTimer - deltaTime)

/-- `TimerSystem.updateSuccessHoldTimer` (`src/client/systems/TimerSystem.ts`
lines 37-47): accumulate while at max comfort, otherwise reset to 0. -/
def updateSuccessHoldTimer (currentTimer : ℚ) (isMaxComfort : Bool) (deltaTime : ℚ) : ℚ :=
  if isMaxComfort then currentTimer + deltaTime else 0

/-- `TimerSystem.isTimeFailure`: `gameTimer <= 0`. -/
def isTimeFailure (gameTimer : ℚ) : Bool :=
  decide (gameTimer ≤ 0)

/-- `TimerSystem.isSuccessHoldComplete`:
`successHoldTimer >= config.SUCCESS_HOLD_TIME`. -/
def isSuccessHoldComplete (config : GameConfig) (successHoldTimer : ℚ) : Bool :=
  decide (config.SUCCESS_HOLD_TIME ≤ successHoldTimer)

/-- `InterferenceSystem.generateRandomInterferenceInterval`:
`Math.random() * (MAX - MIN) + MIN`, with the uniform draw `u` passed in. -/
def generateRandomInterferenceInterval (config : GameConfig) (u : ℚ) : ℚ :=
  u * (config.INTERFERENCE_MAX_INTERVAL - config.INTERFERENCE_MIN_INTERVAL) +
    config.INTERFERENCE_MIN_INTERVAL

/-- `InterferenceSystem.getRandomInterferenceType`: indexes
`['controls_reversed', 'temperature_shock', 'bubble_obstruction']` with
`Math.floor(Math.random() * 3)`, passed in as `i : Fin 3`. -/
def getRandomInterferenceType (i : Fin 3) : InterferenceType :=
  if i.val = 0 then InterferenceType.controls_reversed
  else if i.val = 1 then InterferenceType.temperature_shock
  else InterferenceType.bubble_obstruction

/-- `InterferenceSystem.createInterferenceEvent`
(`src/client/systems/InterferenceSystem.ts` lines 55-62, identical in
`unnamed/part_005`): activates the given type with the configured duration,
with no special case for any type. -/
def createInterferenceEvent (config : GameConfig) (type : InterferenceType) : InterferenceEvent :=
  { type := type
    isActive := true
    duration := config.INTERFERENCE_DURATION
    remainingTime := config.INTERFERENCE_DURATION }

/-- `InterferenceSystem.clearInterferenceEvent`:
`{type: 'none', isActive: false, duration: 0, remainingTime: 0}`. -/
def clearInterferenceEvent : InterferenceEvent :=
  { type := InterferenceType.none
    isActive := false
    duration := 0
    remainingTime := 0 }

/-- `InterferenceSystem.applyTemperatureShock` (`unnamed/part_005` lines
141-147, identical in `src/client/systems/InterferenceSystem.ts`):
`Math.random() > 0.5 ? 0.9 : 0.1`, with the coin passed in. -/
def applyTemperatureShock (coin : Bool) : ℚ :=
  if coin then 9/10 else 1/10

/-- `InterferenceSystem.updateInterferenceEvent`
(`src/client/systems/InterferenceSystem.ts` lines 93-113): no-op if
inactive; otherwise decrement `remainingTime` by `deltaTime`, clamp at 0,
and return the cleared event when it reaches 0. -/
def updateInterferenceEvent (interferenceEvent : InterferenceEvent)
    (deltaTime : ℚ) : InterferenceEvent :=
  if !interferenceEvent.isActive then interferenceEvent
  else
    let newRemainingTime := max 0 (interferenceEvent.remainingTime - deltaTime)
    if newRemainingTime ≤ 0 then clearInterferenceEvent
    else { interferenceEvent with remainingTime := newRemainingTime }

/-- `InterferenceSystem.shouldTriggerInterference`:
`interferenceTimer <= 0 && !isInterferenceActive`. -/
def shouldTriggerInterference (interferenceTimer : ℚ)
    (isInterferenceActive : Bool) : Bool :=
  decide (interferenceTimer ≤ 0) && !isInterferenceActive

/-- `InterferenceSystem.canBeClearedByClick` (`unnamed/part_000` lines
204-210, identical in `unnamed/part_005`): `type !== 'controls_reversed'`. -/
def canBeClearedByClick (type : InterferenceType) : Bool :=
  decide (type ≠ InterferenceType.controls_reversed)

namespace Raddit

/-- The `GameState` record of `raddit/src/client/systems/GameStateManager.ts`
(the shape declared in `CatComfortGame.tsx` / `ConsolidatedGame.tsx`, without
a `speedMultiplier` field). -/
structure GameState where
  currentTemperature : ℚ
  targetTemperature : ℚ
  toleranceWidth : ℚ
  currentComfort : ℚ
  gameTimer : ℚ
  successHoldTimer : ℚ
  isPlusHeld : Bool
  isMinusHeld : Bool
  gameStatus : GameStatus
  interferenceEvent : InterferenceEvent
  interferenceTimer : ℚ
  isControlsReversed : Bool
deriving DecidableEq

/-- `GameStateManager.handleInterferenceEvents` of
`raddit/src/client/systems/GameStateManager.ts`: advance the active event;
when it just ended, reset `isControlsReversed`; when the trigger condition
holds, draw a type, activate it, apply its side effect and reseed
`interferenceTimer`.  The `InterferenceType.none` arm of the switch is
unreachable (the drawn type is one of the three active kinds) and mirrors
the switch having no case for it. -/
def handleInterferenceEvents (config : GameConfig) (state : GameState)
    (deltaTime : ℚ) (r : RandomDraws) : GameState :=
  let updatedEvent := updateInterferenceEvent state.interferenceEvent deltaTime
  let s1 := { state with interferenceEvent := updatedEvent }
  let s2 :=
    if !updatedEvent.isActive && state.interferenceEvent.isActive then
      { s1 with isControlsReversed := false }
    else s1
  if shouldTriggerInterference s2.interferenceTimer s2.interferenceEvent.isActive then
    let interferenceType := getRandomInterferenceType r.typeIdx
    let s3 := { s2 with interferenceEvent := createInterferenceEvent config interferenceType }
    let s4 :=
      match interferenceType with
      | InterferenceType.controls_reversed => { s3 with isControlsReversed := true }
      | InterferenceType.temperature_shock =>
          { s3 with targetTemperature := applyTemperatureShock r.coin }
      | InterferenceType.bubble_obstruction => s3
      | InterferenceType.none => s3
    { s4 with interferenceTimer := generateRandomInterferenceInterval config r.u }
  else s2

/-- `GameStateManager.updateGameState` of
`raddit/src/client/systems/GameStateManager.ts`: frozen unless playing;
advance timers; on time failure resolve the round through
`determineGameResult` (`ComfortSystem.isSuccessConditionMet`, the 0.8
comfort threshold) and return immediately; otherwise run interference,
temperature, comfort and the success-hold timer, and end on a completed
success hold. -/
def updateGameState (config : GameConfig) (currentState : GameState)
    (deltaTime : ℚ) (r : RandomDraws) : GameState :=
  if currentState.gameStatus ≠ GameStatus.playing then currentState
  else
    let s1 := { currentState with
      gameTimer := updateGameTimer currentState.gameTimer deltaTime
      interferenceTimer := updateInterferenceTimer currentState.interferenceTimer deltaTime }
    if isTimeFailure s1.gameTimer then
      let result :=
        if isSuccessConditionMet s1.currentComfort then GameStatus.success
        else GameStatus.failure
      { s1 with gameStatus := result }
    else
      let s2 := handleInterferenceEvents config s1 deltaTime r
      let newTemperature :=
        updateTemperature config s2.currentTemperature s2.isPlusHeld s2.isMinusHeld
          s2.isControlsReversed deltaTime
      let s3 := { s2 with currentTemperature := newTemperature }
      let isInToleranceRange :=
        isTemperatureInRange s3.currentTemperature s3.targetTemperature s3.toleranceWidth
      let newComfort :=
        updateComfort config s3.currentComfort isInToleranceRange deltaTime
      let s4 := { s3 with currentComfort := newComfort }
      let isMaxComfort := decide ((1 : ℚ) ≤ s4.currentComfort)
      let newSuccessHoldTimer :=
        updateSuccessHoldTimer s4.successHoldTimer isMaxComfort deltaTime
      let s5 := { s4 with successHoldTimer := newSuccessHoldTimer }
      if isSuccessHoldComplete config s5.successHoldTimer then
        { s5 with gameStatus := GameStatus.success }
      else s5

/-- `GameStateManager.handleCenterButtonClick` of
`raddit/src/client/systems/GameStateManager.ts`: no-op when no interference
is active; otherwise clear the event, reset `isControlsReversed` and reseed
the interference timer (button latches untouched). -/
def handleCenterButtonClick (config : GameConfig) (currentState : GameState)
    (r : RandomDraws) : GameState :=
  if !currentState.interferenceEvent.isActive then currentState
  else
    { currentState with
      interferenceEvent := clearInterferenceEvent
      isControlsReversed := false
      interferenceTimer := generateRandomInterferenceInterval config r.u }

end Raddit

namespace Systems

/-- The `GameState` record of the `types/GameTypes.ts` module used by
`src/client/systems/GameStateManager.ts`; it additionally carries
`speedMultiplier`.  The event type is the four-value `InterferenceType` of
the sibling `InterferenceSystem.ts` (the events this manager ever receives
come from `createInterferenceEvent` / `clearInterferenceEvent`); the
`speed_change` / `target_shift` / `comfort_drain` switch cases of the
manager refer to type members absent from that union and are unreachable
dead code over it. -/
structure GameState where
  currentTemperature : ℚ
  targetTemperature : ℚ
  toleranceWidth : ℚ
  currentComfort : ℚ
  gameTimer : ℚ
  successHoldTimer : ℚ
  isPlusHeld : Bool
  isMinusHeld : Bool
  gameStatus : GameStatus
  interferenceEvent : InterferenceEvent
  interferenceTimer : ℚ
  isControlsReversed : Bool
  speedMultiplier : ℚ
deriving DecidableEq

/-- `GameStateManager.handleInterferenceEvents` of
`src/client/systems/GameStateManager.ts` (lines 155-212): if an event is
active, advance it and - on expiry - reset `isControlsReversed` and
`speedMultiplier` and reseed `interferenceTimer`; then, if the trigger
condition holds, draw and activate a new event and apply its side effect
(this variant assigns the temperature shock to `currentTemperature` and
does not reseed the timer on trigger). -/
def handleInterferenceEvents (config : GameConfig) (state : GameState)
    (deltaTime : ℚ) (r : RandomDraws) : GameState :=
  let s1 :=
    if state.interferenceEvent.isActive then
      let updatedEvent := updateInterferenceEvent state.interferenceEvent deltaTime
      let s :=
        if !updatedEvent.isActive then
          { state with
            isControlsReversed := false
            speedMultiplier := 1
            interferenceTimer := generateRandomInterferenceInterval config r.u }
        else state
      { s with interferenceEvent := updatedEvent }
    else state
  if shouldTriggerInterference s1.interferenceTimer s1.interferenceEvent.isActive then
    let interferenceType := getRandomInterferenceType r.typeIdx
    let newEvent := createInterferenceEvent config interferenceType
    let s2 :=
      match interferenceType with
      | InterferenceType.controls_reversed => { s1 with isControlsReversed := true }
      | InterferenceType.temperature_shock =>
          { s1 with currentTemperature := applyTemperatureShock r.coin }
      | InterferenceType.bubble_obstruction => s1
      | InterferenceType.none => s1
    { s2 with interferenceEvent := newEvent }
  else s1

/-- `GameStateManager.updateGameState` of
`src/client/systems/GameStateManager.ts` (lines 70-144): frozen unless
playing; advance timers; run interference; update temperature and comfort
with `deltaTime * speedMultiplier` (the `comfort_drain` rate scaling is
unreachable over the four-value event type, so the comfort rate is the
configured one); update the success-hold timer with the raw `deltaTime`;
finally mark `failure` on time-out, else `success` on a completed hold.
There is no early return and no comfort-threshold resolution on the
terminating tick. -/
def updateGameState (config : GameConfig) (currentState : GameState)
    (deltaTime : ℚ) (r : RandomDraws) : GameState :=
  if currentState.gameStatus ≠ GameStatus.playing then currentState
  else
    let newGameTimer := updateGameTimer currentState.gameTimer deltaTime
    let newInterferenceTimer :=
      updateInterferenceTimer currentState.interferenceTimer deltaTime
    let newState := handleInterferenceEvents config
      { currentState with
        gameTimer := newGameTimer
        interferenceTimer := newInterferenceTimer } deltaTime r
    let effectiveDeltaTime := deltaTime * newState.speedMultiplier
    let newTemperature := updateTemperature config newState.currentTemperature
      newState.isPlusHeld newState.isMinusHeld newState.isControlsReversed
      effectiveDeltaTime
    let isInRange := isTemperatureInRange newTemperature
      newState.targetTemperature newState.toleranceWidth
    let newComfort := updateComfort config newState.currentComfort isInRange
      effectiveDeltaTime
    let isMaxComfort := decide ((1 : ℚ) ≤ newComfort)
    let newSuccessHoldTimer :=
      updateSuccessHoldTimer newState.successHoldTimer isMaxComfort deltaTime
    let newGameStatus :=
      if isTimeFailure newGameTimer then GameStatus.failure
      else if isSuccessHoldComplete config newSuccessHoldTimer then GameStatus.success
      else newState.gameStatus
    { newState with
      currentTemperature := newTemperature
      currentComfort := newComfort
      gameTimer := newGameTimer
      successHoldTimer := newSuccessHoldTimer
      gameStatus := newGameStatus }

/-- `GameStateManager.handleCenterButtonClick` of
`src/client/systems/GameStateManager.ts` (lines 219-232): no-op when no
interference is active; otherwise clear the event (whatever its type),
reset `isControlsReversed` and `speedMultiplier`, and reseed the
interference timer.  It consults neither `gameStatus` nor
`canBeClearedByClick`. -/
def handleCenterButtonClick (config : GameConfig) (currentState : GameState)
    (r : RandomDraws) : GameState :=
  if !currentState.interferenceEvent.isActive then currentState
  else
    { currentState with
      interferenceEvent := clearInterferenceEvent
      isControlsReversed := false
      speedMultiplier := 1
      interferenceTimer := generateRandomInterferenceInterval config r.u }

end Systems

/-! Concrete inputs used by the counterexamples and witnesses below. -/

/-- Scenario-B-style state for the `systems` manager: playing, `gameTimer`
0.3, comfort 0.9, no interference, temperature at the target. -/
def c1state : Systems.GameState :=
  { currentTemperature := 1/2
    targetTemperature := 1/2
    toleranceWidth := 1/10
    currentComfort := 9/10
    gameTimer := 3/10
    successHoldTimer := 0
    isPlusHeld := false
    isMinusHeld := false
    gameStatus := GameStatus.playing
    interferenceEvent := clearInterferenceEvent
    interferenceTimer := 10
    isControlsReversed := false
    speedMultiplier := 1 }

/-- Scenario B state for the `raddit` manager: playing, `gameTimer` 0.3,
comfort 0.9. -/
def scenarioB : Raddit.GameState :=
  { currentTemperature := 1/2
    targetTemperature := 1/2
    toleranceWidth := 1/10
    currentComfort := 9/10
    gameTimer := 3/10
    successHoldTimer := 0
    isPlusHeld := false
    isMinusHeld := false
    gameStatus := GameStatus.playing
    interferenceEvent := clearInterferenceEvent
    interferenceTimer := 10
    isControlsReversed := false }

/-- A fixed tuple of random draws used for concrete evaluations. -/
def rdraws : RandomDraws := { u := 1/2, typeIdx := 1, coin := true }

/-- Playing state with an active `controls_reversed` interference. -/
def c2state : Systems.GameState :=
  { currentTemperature := 1/2
    targetTemperature := 1/2
    toleranceWidth := 1/10
    currentComfort := 1/2
    gameTimer := 20
    successHoldTimer := 0
    isPlusHeld := false
    isMinusHeld := false
    gameStatus := GameStatus.playing
    interferenceEvent :=
      { type := InterferenceType.controls_reversed
        isActive := true
        duration := 5
        remainingTime := 3 }
    interferenceTimer := 10
    isControlsReversed := true
    speedMultiplier := 1 }

/-- Terminal (`success`) state that still carries an active interference
event, as produced by a terminating tick of the `raddit`-style managers. -/
def c3state : Systems.GameState :=
  { currentTemperature := 1/2
    targetTemperature := 1/2
    toleranceWidth := 1/10
    currentComfort := 9/10
    gameTimer := 0
    successHoldTimer := 0
    isPlusHeld := false
    isMinusHeld := false
    gameStatus := GameStatus.success
    interferenceEvent :=
      { type := InterferenceType.temperature_shock
        isActive := true
        duration := 8
        remainingTime := 2 }
    interferenceTimer := 10
    isControlsReversed := false
    speedMultiplier := 1 }

/-- Non-playing state with no active interference (both entry points are
no-ops on it). -/
def c3idleState : Systems.GameState :=
  { c3state with
    gameStatus := GameStatus.failure
    interferenceEvent := clearInterferenceEvent }

/-- Playing state whose interference trigger condition holds
(`interferenceTimer = 0`, no active event). -/
def c4state : Systems.GameState :=
  { currentTemperature := 1/2
    targetTemperature := 1/2
    toleranceWidth := 1/10
    currentComfort := 1/2
    gameTimer := 20
    successHoldTimer := 0
    isPlusHeld := false
    isMinusHeld := false
    gameStatus := GameStatus.playing
    interferenceEvent := clearInterferenceEvent
    interferenceTimer := 0
    isControlsReversed := false
    speedMultiplier := 1 }

/-- Scenario C event: active with `remainingTime` 0.2. -/
def c5event : InterferenceEvent :=
  { type := InterferenceType.bubble_obstruction
    isActive := true
    duration := 8
    remainingTime := 1/5 }

/-- Playing state carrying the Scenario C event, with `isControlsReversed`
still set so that the expiry reset is visible. -/
def c5state : Systems.GameState :=
  { c2state with
    interferenceEvent := c5event
    isControlsReversed := true }

/-- Both systems clamp with `Math.max(0, Math.min(1, x))`; the result is
always inside `[0,1]`. -/
theorem clamp01_mem (x : ℚ) : 0 ≤ max 0 (min 1 x) ∧ max 0 (min 1 x) ≤ 1 :=
  ⟨le_max_left 0 _, max_le (by norm_num) (min_le_left 1 x)⟩

/-! Claim theorems. -/

/-- Claim C1, counterexample: on the `src/client/systems` manager the claim
fails.  From a playing state with `gameTimer = 0.3` and `currentComfort =
0.9`, a tick with `dt = 0.5` brings `gameTimer` to 0, yet the returned
status is `failure` (the 0.8 success threshold, met here, is never
consulted) and the tick still advances the simulation: temperature cools
from 0.5 to 0.35 and comfort drops from 0.9 to 0.8. -/
theorem terminating_tick_systems_counterexample :
    c1state.gameStatus = GameStatus.playing ∧
    updateGameTimer c1state.gameTimer (1/2) = 0 ∧
    isSuccessConditionMet c1state.currentComfort = true ∧
    (Systems.updateGameState GAME_CONFIG c1state (1/2) rdraws).gameStatus =
      GameStatus.failure ∧
    (Systems.updateGameState GAME_CONFIG c1state (1/2) rdraws).currentComfort = 4/5 ∧
    (Systems.updateGameState GAME_CONFIG c1state (1/2) rdraws).currentTemperature = 7/20 := by
  refine ⟨rfl, ?_, ?_, ?_, ?_, ?_⟩ <;>
    norm_num [Systems.updateGameState, Systems.handleInterferenceEvents, c1state, rdraws,
      GAME_CONFIG, updateGameTimer, updateInterferenceTimer, updateTemperature, updateComfort,
      updateSuccessHoldTimer, isTimeFailure, isSuccessHoldComplete, isTemperatureInRange,
      shouldTriggerInterference, updateInterferenceEvent, clearInterferenceEvent,
      isSuccessConditionMet, createInterferenceEvent, getRandomInterferenceType,
      generateRandomInterferenceInterval, applyTemperatureShock, abs_of_nonneg, abs_of_nonpos]

/-- Claim C1, amended: on the `raddit` manager (and the identically
resolving `part_006` / `CatComfortGame` / `ConsolidatedGame` managers), a
tick from a playing state that brings `gameTimer` to 0 resolves the round
through the 0.8 comfort threshold (`isSuccessConditionMet`) and returns
immediately: `currentTemperature` and `currentComfort` are those of the
input state. -/
theorem terminating_tick_resolution (config : GameConfig) (s : Raddit.GameState)
    (deltaTime : ℚ) (r : RandomDraws)
    (hplay : s.gameStatus = GameStatus.playing)
    (hterm : s.gameTimer ≤ deltaTime) :
    (Raddit.updateGameState config s deltaTime r).gameStatus =
      (if isSuccessConditionMet s.currentComfort then GameStatus.success
        else GameStatus.failure) ∧
    (Raddit.updateGameState config s deltaTime r).currentTemperature = s.currentTemperature ∧
    (Raddit.updateGameState config s deltaTime r).currentComfort = s.currentComfort ∧
    (Raddit.updateGameState config s deltaTime r).gameTimer = 0 := by
  have h2 : max 0 (s.gameTimer - deltaTime) ≤ 0 := max_le le_rfl (by linarith)
  have h3 : max 0 (s.gameTimer - deltaTime) = 0 :=
    le_antisymm h2 (le_max_left _ _)
  refine ⟨?_, ?_, ?_, ?_⟩ <;>
    simp [Raddit.updateGameState, hplay, updateGameTimer, updateInterferenceTimer,
      isTimeFailure, h2, h3]

/-- Claim C1, witness: Scenario B on the `raddit` manager — `gameTimer =
0.3`, `dt = 0.5`, `currentComfort = 0.9` yields `gameStatus = success` with
temperature and comfort untouched. -/
theorem terminating_tick_resolution_witness :
    (Raddit.updateGameState GAME_CONFIG scenarioB (1/2) rdraws).gameStatus =
      GameStatus.success ∧
    (Raddit.updateGameState GAME_CONFIG scenarioB (1/2) rdraws).currentComfort = 9/10 ∧
    (Raddit.updateGameState GAME_CONFIG scenarioB (1/2) rdraws).currentTemperature = 1/2 := by
  have h := terminating_tick_resolution GAME_CONFIG scenarioB (1/2) rdraws rfl
    (by norm_num [scenarioB])
  refine ⟨?_, ?_, ?_⟩
  · rw [h.1]
    norm_num [isSuccessConditionMet, scenarioB]
  · rw [h.2.2.1]
    rfl
  · rw [h.2.1]
    rfl

/-- Claim C2, counterexample: `handleCenterButtonClick` on a state whose
active interference has type `controls_reversed` does not leave the state
unchanged — it clears the event and resets `isControlsReversed`. -/
theorem center_click_controls_reversed_counterexample :
    c2state.interferenceEvent.type = InterferenceType.controls_reversed ∧
    c2state.interferenceEvent.isActive = true ∧
    c2state.isControlsReversed = true ∧
    (Systems.handleCenterButtonClick GAME_CONFIG c2state rdraws).interferenceEvent.isActive =
      false ∧
    (Systems.handleCenterButtonClick GAME_CONFIG c2state rdraws).interferenceEvent.type =
      InterferenceType.none ∧
    (Systems.handleCenterButtonClick GAME_CONFIG c2state rdraws).isControlsReversed = false := by
  refine ⟨rfl, rfl, rfl, ?_, ?_, ?_⟩ <;>
    simp [Systems.handleCenterButtonClick, c2state, clearInterferenceEvent]

/-- Claim C2, amended: `handleCenterButtonClick` clears any active
interference, `controls_reversed` included — it clears the event, resets
`isControlsReversed` and `speedMultiplier`, and reseeds the interference
timer.  The cannot-be-cleared-by-click policy for `controls_reversed`
exists only as `InterferenceSystem.canBeClearedByClick` (which is false for
`controls_reversed`), consulted by the UI to hide or disable the clear
button and never by the manager. -/
theorem center_click_clears_any_active_interference (config : GameConfig)
    (s : Systems.GameState) (r : RandomDraws)
    (hact : s.interferenceEvent.isActive = true) :
    Systems.handleCenterButtonClick config s r =
      { s with
        interferenceEvent := clearInterferenceEvent
        isControlsReversed := false
        speedMultiplier := 1
        interferenceTimer := generateRandomInterferenceInterval config r.u } ∧
    canBeClearedByClick InterferenceType.controls_reversed = false := by
  constructor
  · simp [Systems.handleCenterButtonClick, hact]
  · rfl

/-- Claim C2, witness: the amended theorem applied to the concrete state
with an active `controls_reversed` event. -/
theorem center_click_clears_any_active_interference_witness :
    Systems.handleCenterButtonClick GAME_CONFIG c2state rdraws =
      { c2state with
        interferenceEvent := clearInterferenceEvent
        isControlsReversed := false
        speedMultiplier := 1
        interferenceTimer := generateRandomInterferenceInterval GAME_CONFIG rdraws.u } ∧
    canBeClearedByClick InterferenceType.controls_reversed = false :=
  center_click_clears_any_active_interference GAME_CONFIG c2state rdraws rfl

/-- Claim C3, counterexample: a state with `gameStatus = success` that
still carries an active interference event is changed by
`handleCenterButtonClick` — the function checks only whether an
interference is active, never `gameStatus`. -/
theorem terminal_state_center_click_counterexample :
    c3state.gameStatus = GameStatus.success ∧
    c3state.interferenceEvent.isActive = true ∧
    (Systems.handleCenterButtonClick GAME_CONFIG c3state rdraws).interferenceEvent.isActive =
      false ∧
    (Systems.handleCenterButtonClick GAME_CONFIG c3state rdraws).interferenceTimer =
      generateRandomInterferenceInterval GAME_CONFIG rdraws.u := by
  refine ⟨rfl, rfl, ?_, ?_⟩ <;>
    simp [Systems.handleCenterButtonClick, c3state, clearInterferenceEvent]

/-- Claim C3, amended: `updateGameState` is a no-op on every state with
`gameStatus ≠ playing`; `handleCenterButtonClick` is a no-op exactly when
no interference is active, regardless of `gameStatus` — so on a non-playing
state both entry points are no-ops only when the interference event is
inactive. -/
theorem mutating_entry_points_noop_conditions (config : GameConfig) :
    (∀ (s : Systems.GameState) (deltaTime : ℚ) (r : RandomDraws),
      s.gameStatus ≠ GameStatus.playing →
      Systems.updateGameState config s deltaTime r = s) ∧
    (∀ (s : Systems.GameState) (r : RandomDraws),
      s.interferenceEvent.isActive = false →
      Systems.handleCenterButtonClick config s r = s) := by
  constructor
  · intro s deltaTime r h
    rw [Systems.updateGameState, if_pos h]
  · intro s r h
    simp [Systems.handleCenterButtonClick, h]

/-- Claim C3, witness: on a `failure` state with no active interference,
both entry points return the state unchanged. -/
theorem mutating_entry_points_noop_conditions_witness :
    Systems.updateGameState GAME_CONFIG c3idleState 1 rdraws = c3idleState ∧
    Systems.handleCenterButtonClick GAME_CONFIG c3idleState rdraws = c3idleState :=
  ⟨(mutating_entry_points_noop_conditions GAME_CONFIG).1 c3idleState 1 rdraws
      (by simp [c3idleState, c3state]),
    (mutating_entry_points_noop_conditions GAME_CONFIG).2 c3idleState rdraws rfl⟩

/-- Claim C4, failing input: on the `src/client/systems` manager, a tick in
which a `temperature_shock` interference triggers assigns the shock value
(0.9 for this coin) to `currentTemperature`, not to `targetTemperature`
(which keeps its input value 0.5) — contrary to the claim, to
`applyTemperatureShock`'s own documentation, and to the `raddit` /
`part_006` managers. -/
theorem temperature_shock_assigns_current_temperature :
    c4state.currentTemperature = 1/2 ∧
    c4state.targetTemperature = 1/2 ∧
    shouldTriggerInterference c4state.interferenceTimer
      c4state.interferenceEvent.isActive = true ∧
    getRandomInterferenceType rdraws.typeIdx = InterferenceType.temperature_shock ∧
    applyTemperatureShock rdraws.coin = 9/10 ∧
    (Systems.handleInterferenceEvents GAME_CONFIG c4state 1 rdraws).currentTemperature =
      9/10 ∧
    (Systems.handleInterferenceEvents GAME_CONFIG c4state 1 rdraws).targetTemperature =
      1/2 ∧
    (Systems.handleInterferenceEvents GAME_CONFIG c4state 1 rdraws).interferenceEvent.type =
      InterferenceType.temperature_shock := by
  refine ⟨rfl, rfl, ?_, rfl, rfl, ?_, ?_, ?_⟩ <;>
    norm_num [Systems.handleInterferenceEvents, c4state, rdraws, GAME_CONFIG,
      shouldTriggerInterference, updateInterferenceEvent, clearInterferenceEvent,
      createInterferenceEvent, getRandomInterferenceType, applyTemperatureShock,
      generateRandomInterferenceInterval]

/-- Claim C5: `updateInterferenceEvent` is a no-op on inactive events; on
active events it decrements `remainingTime` by `dt` clamped at 0, returns
the cleared `none` event exactly when the remaining time reaches 0, and
otherwise only updates `remainingTime`; and on such an expiry within a tick
the manager's `handleInterferenceEvents` also resets `isControlsReversed`
and reseeds `interferenceTimer` with the fresh interval draw. -/
theorem interference_expiry_sole_path (e : InterferenceEvent) (deltaTime : ℚ)
    (hdt : 0 ≤ deltaTime) :
    (e.isActive = false → updateInterferenceEvent e deltaTime = e) ∧
    (e.isActive = true →
      (updateInterferenceEvent e deltaTime).remainingTime =
        max 0 (e.remainingTime - deltaTime) ∧
      (e.remainingTime ≤ deltaTime →
        updateInterferenceEvent e deltaTime = clearInterferenceEvent) ∧
      (deltaTime < e.remainingTime →
        updateInterferenceEvent e deltaTime =
          { e with remainingTime := e.remainingTime - deltaTime })) ∧
    (∀ (config : GameConfig) (s : Systems.GameState) (r : RandomDraws),
      s.interferenceEvent.isActive = true →
      s.interferenceEvent.remainingTime ≤ deltaTime →
      0 < generateRandomInterferenceInterval config r.u →
      (Systems.handleInterferenceEvents config s deltaTime r).interferenceEvent =
        clearInterferenceEvent ∧
      (Systems.handleInterferenceEvents config s deltaTime r).isControlsReversed = false ∧
      (Systems.handleInterferenceEvents config s deltaTime r).interferenceTimer =
        generateRandomInterferenceInterval config r.u) := by
  refine ⟨?_, ?_, ?_⟩
  · intro h
    simp [updateInterferenceEvent, h]
  · intro h
    refine ⟨?_, ?_, ?_⟩
    · by_cases hc : max 0 (e.remainingTime - deltaTime) ≤ 0
      · have hmax : max 0 (e.remainingTime - deltaTime) = 0 :=
          le_antisymm hc (le_max_left _ _)
        simp [updateInterferenceEvent, h, hc, clearInterferenceEvent, hmax]
      · simp [updateInterferenceEvent, h, hc]
    · intro hle
      have hc : max 0 (e.remainingTime - deltaTime) ≤ 0 := max_le le_rfl (by linarith)
      simp [updateInterferenceEvent, h, hc]
    · intro hlt
      have hc : ¬ max 0 (e.remainingTime - deltaTime) ≤ 0 := by
        rw [max_eq_right (by linarith : (0:ℚ) ≤ e.remainingTime - deltaTime)]
        linarith
      have hmax : max 0 (e.remainingTime - deltaTime) = e.remainingTime - deltaTime :=
        max_eq_right (by linarith)
      simp [updateInterferenceEvent, h, hc, hmax]
      intro hle
      exact absurd hle (not_le.mpr hlt)
  · intro config s r hact hexp hres
    have hclear : updateInterferenceEvent s.interferenceEvent deltaTime =
        clearInterferenceEvent := by
      have hc : max 0 (s.interferenceEvent.remainingTime - deltaTime) ≤ 0 :=
        max_le le_rfl (by linarith)
      simp [updateInterferenceEvent, hact, hc]
    have hdec : decide (generateRandomInterferenceInterval config r.u ≤ 0) = false :=
      decide_eq_false (not_le.mpr hres)
    refine ⟨?_, ?_, ?_⟩ <;>
      simp [Systems.handleInterferenceEvents, hact, hclear, clearInterferenceEvent,
        shouldTriggerInterference, hdec]

/-- Claim C5, witness: Scenario C — an active event with `remainingTime =
0.2` hit by a tick of `dt = 0.5` clears to the `none` event, and the
manager resets `isControlsReversed` and reseeds `interferenceTimer`. -/
theorem interference_expiry_sole_path_witness :
    updateInterferenceEvent c5event (1/2) = clearInterferenceEvent ∧
    (Systems.handleInterferenceEvents GAME_CONFIG c5state (1/2) rdraws).interferenceEvent =
      clearInterferenceEvent ∧
    (Systems.handleInterferenceEvents GAME_CONFIG c5state (1/2) rdraws).isControlsReversed =
      false := by
  have h := interference_expiry_sole_path c5event (1/2) (by norm_num)
  have hmgr := h.2.2 GAME_CONFIG c5state rdraws rfl
    (by norm_num [c5state, c5event, c2state])
    (by norm_num [GAME_CONFIG, generateRandomInterferenceInterval, rdraws])
  exact ⟨(h.2.1 rfl).2.1 (by norm_num [c5event]), hmgr.1, hmgr.2.1⟩

/-- Claim C6: reversal symmetry of `updateTemperature` — holding plus with
reversed controls equals holding minus with normal controls, for every
temperature, rate configuration and tick length. -/
theorem reversal_symmetry (config : GameConfig) (t deltaTime : ℚ) :
    updateTemperature config t true false true deltaTime =
      updateTemperature config t false true false deltaTime := rfl

/-- Claim C7: for every `dt ≥ 0`, every combination of the boolean inputs
and any prior value (also outside `[0,1]`), the results of
`updateTemperature` and `updateComfort` lie in `[0,1]`. -/
theorem temperature_comfort_clamped (config : GameConfig) (t c deltaTime : ℚ)
    (p m rev inRange : Bool) (hdt : 0 ≤ deltaTime) :
    (0 ≤ updateTemperature config t p m rev deltaTime ∧
      updateTemperature config t p m rev deltaTime ≤ 1) ∧
    (0 ≤ updateComfort config c inRange deltaTime ∧
      updateComfort config c inRange deltaTime ≤ 1) :=
  ⟨clamp01_mem _, clamp01_mem _⟩

/-- Claim C7, witness: the clamping theorem applied at out-of-range prior
values (temperature 5, comfort -2) with `dt = 1`. -/
theorem temperature_comfort_clamped_witness :
    (0 ≤ updateTemperature GAME_CONFIG 5 true false false 1 ∧
      updateTemperature GAME_CONFIG 5 true false false 1 ≤ 1) ∧
    (0 ≤ updateComfort GAME_CONFIG (-2) true 1 ∧
      updateComfort GAME_CONFIG (-2) true 1 ≤ 1) :=
  temperature_comfort_clamped GAME_CONFIG 5 (-2) 1 true false false true (by norm_num)

/-- Claim C8: `updateSuccessHoldTimer` accumulates `current + dt` at max
comfort and resets hard to 0 otherwise, for every prior value and `dt`. -/
theorem success_hold_timer_law (currentTimer deltaTime : ℚ) :
    updateSuccessHoldTimer currentTimer true deltaTime = currentTimer + deltaTime ∧
    updateSuccessHoldTimer currentTimer false deltaTime = 0 := ⟨rfl, rfl⟩

/-- Claim C9: with both buttons held, `updateTemperature` behaves as
effective-plus for either value of `reversed`: the result is the clamp of
`t + TEMPERATURE_CHANGE_RATE * dt`. -/
theorem both_buttons_plus_precedence (config : GameConfig) (t deltaTime : ℚ)
    (rev : Bool) (hdt : 0 ≤ deltaTime) :
    updateTemperature config t true true rev deltaTime =
      max 0 (min 1 (t + config.TEMPERATURE_CHANGE_RATE * deltaTime)) := by
  cases rev <;> rfl

/-- Claim C9, witness: the precedence theorem at `t = 0.5`, `dt = 0.5`,
reversed controls. -/
theorem both_buttons_plus_precedence_witness :
    updateTemperature GAME_CONFIG (1/2) true true true (1/2) =
      max 0 (min 1 (1/2 + GAME_CONFIG.TEMPERATURE_CHANGE_RATE * (1/2))) :=
  both_buttons_plus_precedence GAME_CONFIG (1/2) (1/2) true (by norm_num)

/-- Claim C10: `createInterferenceEvent` marks every input type active with
the configured duration — including `none`, whose event then has
`isActive = true` together with `type = none`, breaking the
"`isActive` iff `type ≠ none`" correspondence; it is preserved in practice
only because `getRandomInterferenceType` draws exclusively from the three
active kinds. -/
theorem create_interference_event_always_active :
    (∀ (config : GameConfig) (type : InterferenceType),
      createInterferenceEvent config type =
        { type := type, isActive := true, duration := config.INTERFERENCE_DURATION,
          remainingTime := config.INTERFERENCE_DURATION }) ∧
    (∀ config : GameConfig,
      (createInterferenceEvent config InterferenceType.none).isActive = true ∧
      (createInterferenceEvent config InterferenceType.none).type = InterferenceType.none) ∧
    (∀ i : Fin 3,
      getRandomInterferenceType i = InterferenceType.controls_reversed ∨
      getRandomInterferenceType i = InterferenceType.temperature_shock ∨
      getRandomInterferenceType i = InterferenceType.bubble_obstruction) := by
  refine ⟨fun _ _ => rfl, fun _ => ⟨rfl, rfl⟩, ?_⟩
  intro i
  fin_cases i <;> simp [getRandomInterferenceType]

end CatRaddit
